import Mathlib

/-!
Shallow embedding of the fractals repository (src/src/fractal.rs,
mandelbrot.rs, julia.rs, gui.rs) and proofs about its specification.
Machine floating point (f64) is modelled by the rationals; every concrete
value appearing in the claims is a small dyadic rational, on which f64
arithmetic is exact, so the model agrees with the code on all inputs the
claims mention.
-/

/-- Complex point, two coordinates, from struct Point in fractal.rs. -/
structure Point where
  re : ℚ
  im : ℚ
deriving DecidableEq

instance : Inhabited Point := ⟨⟨0, 0⟩⟩

/-- One step of the quadratic map, from Point::next in fractal.rs: the
first argument is the constant (u, v), the second the running iterate
(x, y); the result is (x*x - y*y + u, 2*x*y + v). -/
def Point.next (c z : Point) : Point :=
  Point.mk (z.re * z.re - z.im * z.im + c.re) (2 * z.re * z.im + c.im)

/-- Escape test from Point::fairly_close in fractal.rs: true iff the
squared magnitude is below 100. -/
def Point.fairly_close (p : Point) : Bool :=
  p.re * p.re + p.im * p.im < 100

/-- Fold at the heart of choose_color in fractal.rs: take zipped
palette-iterate pairs while the iterate stays fairly close, and keep the
palette item of the last pair taken, starting from the first palette
item. -/
def colorFold {C : Type} (first : C) (l : List (C × Point)) : C :=
  (l.takeWhile fun cp => Point.fairly_close cp.2).foldl (fun _ cp => cp.1) first

/-- Embedding of choose_color from fractal.rs applied to a finite iterate
list (the iterator type is generic in the source; the tests drive it with
finite vectors). Returns none on an empty palette, where the source
panics on unwrap. -/
def choose_color {C : Type} (palette : List C) (iter : List Point) : Option C :=
  match palette with
  | [] => none
  | first :: _ => some (colorFold first (palette.zip iter))

/-- Embedding of choose_color from fractal.rs applied to an infinite
iterate sequence: zip truncates at the palette length, so exactly
palette.length items of the sequence are consumed. -/
def choose_color_seq {C : Type} (palette : List C) (iter : ℕ → Point) : Option C :=
  choose_color palette ((List.range palette.length).map iter)

/-- Sequence yielded by the scan combinator in the generators: the
accumulator starts at the seed z, is updated by f before each yield, so
element n is f applied n + 1 times to z. -/
def iterSeq (f : Point → Point) (z : Point) : ℕ → Point
  | 0 => f z
  | n + 1 => f (iterSeq f z n)

/-- Generator from mandelbrot.rs: Mandelbrot::new(z) stores z as the scan
seed, and generate(p) uses the sampled point p as the constant of
Point::next. -/
def Mandelbrot.generate (z p : Point) : ℕ → Point :=
  iterSeq (Point.next p) z

/-- Generator from julia.rs: Julia::new(z) stores z as the constant of
Point::next, and generate(p) uses the sampled point p as the scan seed. -/
def Julia.generate (z p : Point) : ℕ → Point :=
  iterSeq (Point.next z) p

/-- Embedding of make_image from fractal.rs: classify one point by
choose_color over the palette and the generated iterate sequence. -/
def make_image {C : Type} (gen : Point → ℕ → Point) (palette : List C) (p : Point) :
    Option C :=
  choose_color_seq palette (gen p)

/-- Embedding of sample from fractal.rs: the rayon parallel map collects
in input order, so it is the nested map of make_image over the rows. -/
def sample {C : Type} (grid : List (List Point)) (gen : Point → ℕ → Point)
    (palette : List C) : List (List (Option C)) :=
  grid.map fun rw => rw.map fun p => make_image gen palette p

/-- Row-major coordinate rows computed by the loops of Grid::new in
fractal.rs: cell (r, c) is (x_spread * c + x_min, y_spread * r + y_min)
with spreads (max - min) / (count - 1), the count subtraction being the
usize subtraction of the source. -/
def gridRows (col row : ℕ) (pmin pmax : Point) : List (List Point) :=
  (List.range row).map fun r : ℕ =>
    (List.range col).map fun c : ℕ =>
      Point.mk ((pmax.re - pmin.re) / ((col - 1 : ℕ) : ℚ) * (c : ℚ) + pmin.re)
        ((pmax.im - pmin.im) / ((row - 1 : ℕ) : ℚ) * (r : ℚ) + pmin.im)

/-- Embedding of Grid::new in fractal.rs: the two leading assertions are
modelled by none (assertion failure aborts construction), otherwise the
interpolated rows are produced. -/
def Grid.new (col row : ℕ) (pmin pmax : Point) : Option (List (List Point)) :=
  if pmin.re < pmax.re then
    if pmin.im < pmax.im then
      some (gridRows col row pmin pmax)
    else none
  else none

/-- Iterate sequence that is fairly close at step 0 and escapes at step 1. -/
def escapeAtOne (n : ℕ) : Point :=
  if n = 0 then Point.mk 0 0 else Point.mk 8 8

/-- Iterate sequence that is fairly close at steps 0 and 1 and escapes at
step 2. -/
def escapeAtTwo (n : ℕ) : Point :=
  if n < 2 then Point.mk 0 0 else Point.mk 8 8

/-- Iterate sequence that stays fairly close below index 2, then jumps to
squared magnitude 18. -/
def seqCloseA (n : ℕ) : Point :=
  if n < 2 then Point.mk 0 0 else Point.mk 3 3

/-- Iterate sequence that stays fairly close below index 2, then jumps to
squared magnitude 32; it agrees with seqCloseA below index 2. -/
def seqCloseB (n : ℕ) : Point :=
  if n < 2 then Point.mk 0 0 else Point.mk 4 4

/-- Sequence that the words of claim C10 ascribe to Julia::new(z).generate(p):
seed z_0 equal to the constructor argument z and constant equal to the
sampled point p. Written from the claim text for comparison; the code in
julia.rs uses the opposite roles. -/
def juliaClaimRoles (z p : Point) : ℕ → Point :=
  iterSeq (Point.next p) z

/-- Cursor location in window coordinates and backing-surface pixel
coordinates, from struct Position in gui.rs. -/
structure Position where
  virtual_x : ℤ
  virtual_y : ℤ
  x : ℤ
  y : ℤ
deriving DecidableEq

/-- Zero cursor of Position::new in gui.rs. -/
def Position.new : Position :=
  Position.mk 0 0 0 0

/-- Bounding box pair, from struct CanvasDims in gui.rs. -/
structure CanvasDims where
  min : Point
  max : Point
deriving DecidableEq

/-- Drag in progress, from struct DraggingState in gui.rs; the image type
stays generic, standing for the pixel_canvas Image buffer whose pixels
the state machine never inspects. -/
structure DraggingState (I : Type) where
  initial_click : Position
  current : Position
  dims : CanvasDims
  image : I

/-- Render state machine of gui.rs. -/
inductive RenderState (I : Type) where
  | Dragging : DraggingState I → RenderState I
  | Recalc : Point → Point → RenderState I
  | Done : Point → Point → Position → I → RenderState I

/-- Controller state, from struct CanvasState in gui.rs. -/
structure CanvasState (I : Type) where
  initial_dims : CanvasDims
  render_state : RenderState I

/-- Constructor CanvasState::new in gui.rs: remember the supplied box and
start in Recalc over it. -/
def CanvasState.new {I : Type} (pmin pmax : Point) : CanvasState I :=
  CanvasState.mk (CanvasDims.mk pmin pmax) (RenderState.Recalc pmin pmax)

/-- Surface metadata handed to the input callback, the fields of the
pixel_canvas CanvasInfo used by gui.rs: backing width and height and the
device pixel scale factor. -/
structure CanvasInfo where
  width : ℕ
  height : ℕ
  dpi : ℚ

/-- Window events handle_input in gui.rs matches on; every other event
falls into the wildcard no-op arm. -/
inductive GuiEvent where
  | leftPressed
  | leftReleased
  | rightPressed
  | cursorMoved (x y : ℤ)
  | untracked

/-- Truncating float-to-integer conversion modelling the as-i32 casts in
gui.rs: toward zero, so floor for nonnegative values and ceiling
otherwise. -/
def toI32 (q : ℚ) : ℤ :=
  if 0 ≤ q then ⌊q⌋ else ⌈q⌉

/-- Cursor update of the CursorMoved arm of handle_input in gui.rs:
window coordinates stored as delivered, pixel coordinates scaled by the
device pixel ratio with the vertical axis flipped. -/
def movePosition (info : CanvasInfo) (x y : ℤ) : Position :=
  Position.mk x y (toI32 ((x : ℚ) * info.dpi))
    (toI32 ((((info.height : ℤ) - y : ℤ) : ℚ) * info.dpi))

/-- Bounding box computed by the left-release arm of handle_input in
gui.rs: order the drag rectangle corners in pixel space, scale each by
the complex extent per pixel, offset by the old minimum. -/
def releaseBox (info : CanvasInfo) (initial_click current : Position) (dims : CanvasDims) :
    Point × Point :=
  let pxmin : ℤ := if current.x < initial_click.x then current.x else initial_click.x
  let pxmax : ℤ := if current.x < initial_click.x then initial_click.x else current.x
  let pymin : ℤ := if current.y < initial_click.y then current.y else initial_click.y
  let pymax : ℤ := if current.y < initial_click.y then initial_click.y else current.y
  let x_scale : ℚ := (dims.max.re - dims.min.re) / (info.width : ℚ)
  let y_scale : ℚ := (dims.max.im - dims.min.im) / (info.height : ℚ)
  (Point.mk ((pxmin : ℚ) * x_scale + dims.min.re) ((pymin : ℚ) * y_scale + dims.min.im),
    Point.mk ((pxmax : ℚ) * x_scale + dims.min.re) ((pymax : ℚ) * y_scale + dims.min.im))

/-- Input callback CanvasState::handle_input in gui.rs, modelled as a
pure transition returning the next controller state and the redraw
flag. -/
def handle_input {I : Type} (info : CanvasInfo) (state : CanvasState I) (event : GuiEvent) :
    CanvasState I × Bool :=
  match event, state.render_state with
  | GuiEvent.leftPressed, RenderState.Done pmin pmax position image =>
      (CanvasState.mk state.initial_dims
          (RenderState.Dragging
            (DraggingState.mk position position (CanvasDims.mk pmin pmax) image)),
        false)
  | GuiEvent.cursorMoved x y, RenderState.Dragging ds =>
      (CanvasState.mk state.initial_dims
          (RenderState.Dragging
            (DraggingState.mk ds.initial_click (movePosition info x y) ds.dims ds.image)),
        false)
  | GuiEvent.cursorMoved x y, RenderState.Done pmin pmax _ image =>
      (CanvasState.mk state.initial_dims
          (RenderState.Done pmin pmax (movePosition info x y) image),
        false)
  | GuiEvent.leftReleased, RenderState.Dragging ds =>
      (CanvasState.mk state.initial_dims
          (RenderState.Recalc (releaseBox info ds.initial_click ds.current ds.dims).1
            (releaseBox info ds.initial_click ds.current ds.dims).2),
        true)
  | GuiEvent.rightPressed, RenderState.Done _ _ _ _ =>
      (CanvasState.mk state.initial_dims
          (RenderState.Recalc state.initial_dims.min state.initial_dims.max),
        true)
  | _, _ => (state, false)

theorem colorFold_cons_of_far {C : Type} (a c : C) (p : Point) (l : List (C × Point))
    (h : Point.fairly_close p = false) : colorFold a ((c, p) :: l) = a := by
  simp [colorFold, List.takeWhile_cons, h]

theorem colorFold_cons_of_close {C : Type} (a c : C) (p : Point) (l : List (C × Point))
    (h : Point.fairly_close p = true) : colorFold a ((c, p) :: l) = colorFold c l := by
  simp [colorFold, List.takeWhile_cons, h]

/-- Value of the choose_color fold when the iterate list stays fairly
close up to index k and escapes at index k: the palette item of index
k - 1 is kept, the initial accumulator when k = 0. -/
theorem colorFold_escape {C : Type} :
    ∀ (k : ℕ) (palette : List C) (pts : List Point) (first : C),
      k < palette.length → k < pts.length →
      (∀ i, i < k → Point.fairly_close (pts.getD i default) = true) →
      Point.fairly_close (pts.getD k default) = false →
      colorFold first (palette.zip pts) = (first :: palette).getD k first
  | 0, c :: cs, p :: ps, first, _, _, _, hfar => by
      simp only [List.getD_cons_zero] at hfar
      rw [List.zip_cons_cons, colorFold_cons_of_far _ _ _ _ hfar, List.getD_cons_zero]
  | k + 1, c :: cs, p :: ps, first, hp, hq, hclose, hfar => by
      have h0 : Point.fairly_close p = true := by
        have h := hclose 0 (Nat.succ_pos k)
        simpa using h
      rw [List.zip_cons_cons, colorFold_cons_of_close _ _ _ _ h0]
      have ih := colorFold_escape k cs ps c (by simpa using hp) (by simpa using hq)
        (fun i hi => by
          have h := hclose (i + 1) (by omega)
          simpa using h)
        (by simpa using hfar)
      rw [ih, List.getD_cons_succ]
      have hk : k < (c :: cs).length := by simpa using Nat.lt_of_succ_lt hp
      rw [List.getD_eq_getElem (c :: cs) c hk, List.getD_eq_getElem (c :: cs) first hk]

/-- Value of the choose_color fold when every zipped iterate stays fairly
close: the last palette item is kept. -/
theorem colorFold_saturate {C : Type} :
    ∀ (palette : List C) (pts : List Point) (first : C),
      palette.length ≤ pts.length →
      (∀ i, i < palette.length → Point.fairly_close (pts.getD i default) = true) →
      colorFold first (palette.zip pts) = palette.getLastD first
  | [], _, first, _, _ => by simp [colorFold]
  | c :: cs, [], first, hlen, _ => by simp at hlen
  | c :: cs, p :: ps, first, hlen, hclose => by
      have h0 : Point.fairly_close p = true := by
        have h := hclose 0 (by simp)
        simpa using h
      rw [List.zip_cons_cons, colorFold_cons_of_close _ _ _ _ h0]
      have ih := colorFold_saturate cs ps c (by simpa using hlen)
        (fun i hi => by
          have h := hclose (i + 1) (by simpa using Nat.succ_lt_succ hi)
          simpa using h)
      rw [ih, List.getLastD_cons]

theorem getD_range_map (f : ℕ → Point) (n i : ℕ) (h : i < n) (d : Point) :
    ((List.range n).map f).getD i d = f i := by
  rw [List.getD_eq_getElem?_getD, List.getElem?_map, List.getElem?_range h]
  rfl

/-- Escape characterization of choose_color on an infinite iterate
sequence: if the sequence stays fairly close strictly below index k and
escapes at index k, with k inside the palette, the item of index k - 1
(natural subtraction) is returned. -/
theorem choose_color_seq_escape {C : Type} (palette : List C) (iter : ℕ → Point) (k : ℕ)
    (hk : k < palette.length)
    (hclose : ∀ i, i < k → Point.fairly_close (iter i) = true)
    (hfar : Point.fairly_close (iter k) = false) :
    choose_color_seq palette iter = palette[(k - 1)]? := by
  match palette with
  | [] => exact absurd hk (by simp)
  | c :: cs =>
    rw [choose_color_seq, choose_color]
    have hfold := colorFold_escape k (c :: cs) ((List.range (c :: cs).length).map iter) c hk
      (by simpa using hk)
      (fun i hi => by
        rw [getD_range_map iter _ i (Nat.lt_trans hi hk)]
        exact hclose i hi)
      (by
        rw [getD_range_map iter _ k hk]
        exact hfar)
    rw [hfold]
    match k with
    | 0 => simp
    | k + 1 =>
      rw [List.getD_cons_succ, Nat.add_sub_cancel]
      have hk2 : k < (c :: cs).length := Nat.lt_of_succ_lt hk
      rw [List.getD_eq_getElem (c :: cs) c hk2, List.getElem?_eq_getElem hk2]

/-- Saturation of choose_color on an infinite iterate sequence: if every
iterate up to the palette length stays fairly close, the last palette
item is returned. -/
theorem choose_color_seq_saturate {C : Type} (palette : List C) (iter : ℕ → Point)
    (hclose : ∀ i, i < palette.length → Point.fairly_close (iter i) = true) :
    choose_color_seq palette iter = palette.getLast? := by
  match palette with
  | [] => rfl
  | c :: cs =>
    rw [choose_color_seq, choose_color]
    have hfold := colorFold_saturate (c :: cs) ((List.range (c :: cs).length).map iter) c
      (by simp)
      (fun i hi => by
        rw [getD_range_map iter _ i hi]
        exact hclose i hi)
    rw [hfold, List.getLastD_eq_getLast?,
      List.getLast?_eq_getLast_of_ne_nil (List.cons_ne_nil c cs), Option.getD_some]

/-- Prefix dependence of choose_color on an infinite iterate sequence:
only the first palette.length items of the sequence matter. -/
theorem choose_color_seq_congr {C : Type} (palette : List C) (f g : ℕ → Point)
    (h : ∀ i, i < palette.length → f i = g i) :
    choose_color_seq palette f = choose_color_seq palette g := by
  rw [choose_color_seq, choose_color_seq]
  have hmap : (List.range palette.length).map f = (List.range palette.length).map g := by
    refine List.map_congr_left ?_
    intro a ha
    exact h a (List.mem_range.mp ha)
  rw [hmap]

/-- C1 counterexample: with palette [0, 1, 2, 3] the iterate sequence
escapeAtOne first fails fairly_close at 0-indexed step 1, and 1 is below
the palette length 4, yet choose_color returns item 0 rather than
P[1] = 1 as the claim predicts. -/
theorem c1_counterexample :
    Point.fairly_close (escapeAtOne 0) = true ∧
    Point.fairly_close (escapeAtOne 1) = false ∧
    1 < ([0, 1, 2, 3] : List ℕ).length ∧
    choose_color_seq [0, 1, 2, 3] escapeAtOne = some 0 ∧
    choose_color_seq [0, 1, 2, 3] escapeAtOne ≠ some 1 := by
  refine ⟨?_, ?_, by norm_num, ?_, ?_⟩ <;>
    norm_num [escapeAtOne, choose_color_seq, choose_color, colorFold, Point.fairly_close,
      List.takeWhile, List.range_succ]

/-- C1 amended: for every palette P and iterate sequence whose first
fairly_close failure is at 0-indexed step k with k below the palette
length, choose_color returns the item of index k - 1 under natural
subtraction, that is P[k - 1] when k is at least 1 and P[0] when k = 0. -/
theorem c1_escape_step_color {C : Type} (palette : List C) (iter : ℕ → Point) (k : ℕ)
    (hk : k < palette.length)
    (hclose : ∀ i, i < k → Point.fairly_close (iter i) = true)
    (hfar : Point.fairly_close (iter k) = false) :
    choose_color_seq palette iter = palette[(k - 1)]? :=
  choose_color_seq_escape palette iter k hk hclose hfar

/-- C1 witness: palette [0, 1, 2, 3] with an escape at step 2 yields the
item of index 1. -/
theorem c1_escape_step_color_witness :
    choose_color_seq [0, 1, 2, 3] escapeAtTwo = ([0, 1, 2, 3] : List ℕ)[(2 - 1 : ℕ)]? :=
  c1_escape_step_color [0, 1, 2, 3] escapeAtTwo 2 (by norm_num)
    (fun i hi => by
      have h : i = 0 ∨ i = 1 := by omega
      rcases h with h | h <;> rw [h] <;> norm_num [escapeAtTwo, Point.fairly_close])
    (by norm_num [escapeAtTwo, Point.fairly_close])

/-- C2: the classifier result depends on at most the first palette.length
items of the iterate sequence, a point that never escapes within the
palette length takes the last palette item, and the saturation example of
the spec evaluates to [0, 0, 1, 2, 3, 3]. -/
theorem c2_classifier_cap :
    (∀ (C : Type) (palette : List C) (f g : ℕ → Point),
        (∀ i, i < palette.length → f i = g i) →
        choose_color_seq palette f = choose_color_seq palette g) ∧
    (∀ (C : Type) (palette : List C) (f : ℕ → Point),
        (∀ i, i < palette.length → Point.fairly_close (f i) = true) →
        choose_color_seq palette f = palette.getLast?) ∧
    (List.range 6).map
        (fun i => choose_color [0, 1, 2, 3] (List.replicate i (Point.mk 0 0) ++ [Point.mk 8 8])) =
      [some 0, some 0, some 1, some 2, some 3, some 3] := by
  refine ⟨fun C palette f g h => choose_color_seq_congr palette f g h,
    fun C palette f h => choose_color_seq_saturate palette f h, ?_⟩
  norm_num [List.range_succ, List.replicate, choose_color, colorFold, Point.fairly_close,
    List.takeWhile]

/-- C2 witness: two sequences agreeing below the palette length get the
same color, and an always-close sequence takes the last palette item. -/
theorem c2_classifier_cap_witness :
    choose_color_seq [0, 1] seqCloseA = choose_color_seq [0, 1] seqCloseB ∧
    choose_color_seq [0, 1, 2, 3] (fun _ => Point.mk 0 0) = ([0, 1, 2, 3] : List ℕ).getLast? :=
  ⟨c2_classifier_cap.1 ℕ [0, 1] seqCloseA seqCloseB
      (fun i hi => by
        have h2 : i < 2 := by simpa using hi
        simp [seqCloseA, seqCloseB, h2]),
    c2_classifier_cap.2.1 ℕ [0, 1, 2, 3] (fun _ => Point.mk 0 0)
      (fun i _ => by norm_num [Point.fairly_close])⟩

/-- C3: when the very first iterate already fails fairly_close, the first
palette item is returned, and the concrete instance of the spec, palette
[0, 1, 2, 3] against the single iterate (8, 8), gives 0. -/
theorem c3_immediate_escape :
    (∀ (C : Type) (palette : List C) (iter : ℕ → Point),
        Point.fairly_close (iter 0) = false →
        choose_color_seq palette iter = palette[0]?) ∧
    choose_color [0, 1, 2, 3] [Point.mk 8 8] = some 0 := by
  constructor
  · intro C palette iter hfar
    match palette with
    | [] => rfl
    | c :: cs =>
      have h := choose_color_seq_escape (c :: cs) iter 0 (by simp)
        (fun i hi => absurd hi (Nat.not_lt_zero i)) hfar
      simpa using h
  · norm_num [choose_color, colorFold, Point.fairly_close, List.takeWhile]

/-- C3 witness: a sequence that starts outside the escape disk gets the
head of the palette. -/
theorem c3_immediate_escape_witness :
    choose_color_seq [0, 1, 2, 3] (fun _ => Point.mk 8 8) = ([0, 1, 2, 3] : List ℕ)[0]? :=
  c3_immediate_escape.1 ℕ [0, 1, 2, 3] (fun _ => Point.mk 8 8)
    (by norm_num [Point.fairly_close])

/-- C4: Point.next is the quadratic-map successor, fairly_close holds
exactly when the squared magnitude is below 100, and the Mandelbrot
generator with internal point (0, 0) sampled at (1/2, 0) matches the
expected real parts 0.5, 0.75, 1.0625, 1.62891 within 0.001 absolute
squared error per step. -/
theorem c4_iteration_numeric :
    (∀ c z : Point,
        Point.next c z =
          Point.mk (z.re * z.re - z.im * z.im + c.re) (2 * z.re * z.im + c.im)) ∧
    (∀ p : Point, Point.fairly_close p = true ↔ p.re * p.re + p.im * p.im < 100) ∧
    ((Mandelbrot.generate (Point.mk 0 0) (Point.mk (1/2) 0) 0).re - 1/2) ^ 2 < 1/1000 ∧
    ((Mandelbrot.generate (Point.mk 0 0) (Point.mk (1/2) 0) 1).re - 3/4) ^ 2 < 1/1000 ∧
    ((Mandelbrot.generate (Point.mk 0 0) (Point.mk (1/2) 0) 2).re - 10625/10000) ^ 2 < 1/1000 ∧
    ((Mandelbrot.generate (Point.mk 0 0) (Point.mk (1/2) 0) 3).re - 162891/100000) ^ 2 < 1/1000 := by
  refine ⟨fun c z => rfl, fun p => by simp [Point.fairly_close], ?_, ?_, ?_, ?_⟩ <;>
    norm_num [Mandelbrot.generate, iterSeq, Point.next]

/-- C5: under the documented preconditions Grid.new yields exactly row
rows of length col whose cell (r, c) is the linear interpolation of the
bounding box, and the 3 by 3 grid over (0, 0) to (2, 2) has the expected
corner and center cells. -/
theorem c5_grid_cells :
    (∀ (col row : ℕ) (pmin pmax : Point),
        2 ≤ col → 2 ≤ row → pmin.re < pmax.re → pmin.im < pmax.im →
        ∃ g, Grid.new col row pmin pmax = some g ∧
          g.length = row ∧
          (∀ r, r < row → (g[r]?).map List.length = some col) ∧
          (∀ r c : ℕ, r < row → c < col →
            g[r]?.bind (fun rw => rw[c]?) =
              some (Point.mk (pmin.re + (c : ℚ) * ((pmax.re - pmin.re) / ((col : ℚ) - 1)))
                (pmin.im + (r : ℚ) * ((pmax.im - pmin.im) / ((row : ℚ) - 1)))))) ∧
    Grid.new 3 3 (Point.mk 0 0) (Point.mk 2 2) =
      some [[Point.mk 0 0, Point.mk 1 0, Point.mk 2 0],
            [Point.mk 0 1, Point.mk 1 1, Point.mk 2 1],
            [Point.mk 0 2, Point.mk 1 2, Point.mk 2 2]] := by
  constructor
  · intro col row pmin pmax hcol hrow hre him
    have hc1 : ((col - 1 : ℕ) : ℚ) = (col : ℚ) - 1 := by
      rw [Nat.cast_sub (by omega), Nat.cast_one]
    have hr1 : ((row - 1 : ℕ) : ℚ) = (row : ℚ) - 1 := by
      rw [Nat.cast_sub (by omega), Nat.cast_one]
    refine ⟨gridRows col row pmin pmax, ?_, ?_, ?_, ?_⟩
    · simp [Grid.new, hre, him]
    · simp [gridRows]
    · intro r hr
      rw [gridRows, List.getElem?_map, List.getElem?_range hr]
      simp
    · intro r c hr hc
      rw [gridRows, List.getElem?_map, List.getElem?_range hr]
      simp only [Option.map_some', Option.some_bind]
      rw [List.getElem?_map, List.getElem?_range hc]
      simp only [Option.map_some', Option.some.injEq, Point.mk.injEq]
      rw [hc1, hr1]
      constructor <;> ring
  · norm_num [Grid.new, gridRows, List.range_succ]

/-- C5 witness: the general statement applied to the 3 by 3 grid over
(0, 0) to (2, 2). -/
theorem c5_grid_cells_witness :
    ∃ g, Grid.new 3 3 (Point.mk 0 0) (Point.mk 2 2) = some g ∧
      g.length = 3 ∧
      (∀ r, r < 3 → (g[r]?).map List.length = some 3) ∧
      (∀ r c : ℕ, r < 3 → c < 3 →
        g[r]?.bind (fun rw => rw[c]?) =
          some (Point.mk ((Point.mk 0 0).re +
              (c : ℚ) * (((Point.mk 2 2).re - (Point.mk 0 0).re) / (((3 : ℕ) : ℚ) - 1)))
            ((Point.mk 0 0).im +
              (r : ℚ) * (((Point.mk 2 2).im - (Point.mk 0 0).im) / (((3 : ℕ) : ℚ) - 1))))) :=
  c5_grid_cells.1 3 3 (Point.mk 0 0) (Point.mk 2 2) (by norm_num) (by norm_num)
    (by norm_num) (by norm_num)

/-- C6: Grid.new aborts on its leading assertions exactly when the
bounding box is degenerate on some axis, and is constructed whenever both
axes are strictly ordered. -/
theorem c6_grid_bounds_check (col row : ℕ) (pmin pmax : Point) :
    Grid.new col row pmin pmax = none ↔ pmax.re ≤ pmin.re ∨ pmax.im ≤ pmin.im := by
  by_cases h1 : pmin.re < pmax.re
  · by_cases h2 : pmin.im < pmax.im
    · rw [Grid.new, if_pos h1, if_pos h2]
      simp [not_le.mpr h1, not_le.mpr h2]
    · rw [Grid.new, if_pos h1, if_neg h2]
      simp [not_lt.mp h2]
  · rw [Grid.new, if_neg h1]
    simp [not_lt.mp h1]

/-- C7: sample keeps the shape of the input grid and fills cell (r, c)
with make_image of the corresponding input point, independently of any
other cell. -/
theorem c7_sample_shape_cells {C : Type} (grid : List (List Point))
    (gen : Point → ℕ → Point) (palette : List C) :
    (sample grid gen palette).length = grid.length ∧
    (∀ r : ℕ, ((sample grid gen palette)[r]?).map List.length = (grid[r]?).map List.length) ∧
    (∀ r c : ℕ, (sample grid gen palette)[r]?.bind (fun rw => rw[c]?) =
      (grid[r]?.bind (fun rw => rw[c]?)).map (make_image gen palette)) := by
  refine ⟨by simp [sample], ?_, ?_⟩
  · intro r
    cases h : grid[r]? <;> simp [sample, List.getElem?_map, h]
  · intro r c
    cases h : grid[r]? with
    | none => simp [sample, List.getElem?_map, h]
    | some rw => simp [sample, List.getElem?_map, h]

/-- C10 counterexample: the claim ascribes to Julia::new(b).generate(a)
the seed b and the constant a; at a = (0, 0), b = (0, 1) the first
element of the code sequence is (0, 1) while the ascribed roles give
(-1, 0). -/
theorem c10_counterexample :
    Julia.generate (Point.mk 0 1) (Point.mk 0 0) 0 = Point.mk 0 1 ∧
    juliaClaimRoles (Point.mk 0 1) (Point.mk 0 0) 0 = Point.mk (-1) 0 ∧
    Julia.generate (Point.mk 0 1) (Point.mk 0 0) 0 ≠
      juliaClaimRoles (Point.mk 0 1) (Point.mk 0 0) 0 := by
  refine ⟨?_, ?_, ?_⟩ <;>
    norm_num [Julia.generate, juliaClaimRoles, iterSeq, Point.next, Point.mk.injEq]

/-- C10 amended: Mandelbrot::new(a).generate(b) and Julia::new(b).generate(a)
are elementwise equal; both run the quadratic orbit with seed z_0 = a and
constant c = b, the Mandelbrot constructor argument being the seed and
the Julia constructor argument the constant. -/
theorem c10_generator_swap (a b : Point) (n : ℕ) :
    Mandelbrot.generate a b n = Julia.generate b a n ∧
    Mandelbrot.generate a b n = iterSeq (Point.next b) a n :=
  ⟨rfl, rfl⟩

/-- C8: from Done with the cursor on pixel (0, 0), a left press, a cursor
move whose scaled pixel position is (width, height), and a left release
produce Recalc with exactly the original bounding box: the identity zoom
round trip is exact in this model, hence within any floating-point
tolerance. -/
theorem c8_identity_zoom {I : Type} (info : CanvasInfo) (state : CanvasState I)
    (pmin pmax : Point) (pos : Position) (img : I) (mx my : ℤ)
    (hstate : state.render_state = RenderState.Done pmin pmax pos img)
    (hx : pos.x = 0) (hy : pos.y = 0)
    (hw : 0 < info.width) (hh : 0 < info.height)
    (hmx : toI32 ((mx : ℚ) * info.dpi) = (info.width : ℤ))
    (hmy : toI32 ((((info.height : ℤ) - my : ℤ) : ℚ) * info.dpi) = (info.height : ℤ)) :
    ((handle_input info
        ((handle_input info
            ((handle_input info state GuiEvent.leftPressed).1)
            (GuiEvent.cursorMoved mx my)).1)
        GuiEvent.leftReleased).1).render_state = RenderState.Recalc pmin pmax := by
  obtain ⟨minre, minim⟩ := pmin
  obtain ⟨maxre, maxim⟩ := pmax
  have hw0 : ((info.width : ℕ) : ℚ) ≠ 0 := Nat.cast_ne_zero.mpr (by omega)
  have hh0 : ((info.height : ℕ) : ℚ) ≠ 0 := Nat.cast_ne_zero.mpr (by omega)
  have hwx : ¬ ((info.width : ℤ) < pos.x) := by
    rw [hx]
    exact not_lt.mpr (by positivity)
  have hwy : ¬ ((info.height : ℤ) < pos.y) := by
    rw [hy]
    exact not_lt.mpr (by positivity)
  simp only [handle_input, hstate, movePosition, hmx, hmy, releaseBox, hwx, hwy, if_neg,
    RenderState.Recalc.injEq]
  rw [hx, hy]
  push_cast
  constructor <;> rw [Point.mk.injEq] <;> constructor <;> field_simp

/-- C8 witness: the identity zoom on a 4 by 3 surface with device pixel
ratio 1 over the box (-2, -1) to (1, 2). -/
theorem c8_identity_zoom_witness :
    ((handle_input (CanvasInfo.mk 4 3 1)
        ((handle_input (CanvasInfo.mk 4 3 1)
            ((handle_input (CanvasInfo.mk 4 3 1)
                (CanvasState.mk (CanvasDims.mk (Point.mk (-2) (-1)) (Point.mk 1 2))
                  (RenderState.Done (Point.mk (-2) (-1)) (Point.mk 1 2) Position.new ()))
                GuiEvent.leftPressed).1)
            (GuiEvent.cursorMoved 4 0)).1)
        GuiEvent.leftReleased).1).render_state =
      RenderState.Recalc (Point.mk (-2) (-1)) (Point.mk 1 2) :=
  c8_identity_zoom (CanvasInfo.mk 4 3 1) _ _ _ Position.new () 4 0 rfl rfl rfl
    (by norm_num) (by norm_num)
    (by norm_num [toI32, Int.floor_intCast])
    (by norm_num [toI32, Int.floor_intCast])

/-- C9: a right press in any Done state moves the controller to Recalc
over the initial dimensions, handle_input never changes the stored
initial dimensions, and CanvasState::new stores exactly the box supplied
at construction, so the reset box is the constructed one. -/
theorem c9_right_press_reset :
    (∀ (I : Type) (info : CanvasInfo) (state : CanvasState I) (pmin pmax : Point)
        (pos : Position) (img : I),
        state.render_state = RenderState.Done pmin pmax pos img →
        handle_input info state GuiEvent.rightPressed =
          (CanvasState.mk state.initial_dims
              (RenderState.Recalc state.initial_dims.min state.initial_dims.max),
            true)) ∧
    (∀ (I : Type) (info : CanvasInfo) (state : CanvasState I) (event : GuiEvent),
        (handle_input info state event).1.initial_dims = state.initial_dims) ∧
    (∀ (I : Type) (pmin pmax : Point),
        (CanvasState.new (I := I) pmin pmax).initial_dims = CanvasDims.mk pmin pmax) := by
  refine ⟨?_, ?_, fun I pmin pmax => rfl⟩
  · intro I info state pmin pmax pos img hstate
    simp [handle_input, hstate]
  · intro I info state event
    cases event <;> cases h : state.render_state <;> simp [handle_input, h]

/-- C9 witness: a concrete Done state over the box (0, 0) to (1, 1) in a
controller constructed for (-2, -2) to (2, 2) resets to the constructed
box. -/
theorem c9_right_press_reset_witness :
    handle_input (CanvasInfo.mk 4 3 1)
        (CanvasState.mk (CanvasDims.mk (Point.mk (-2) (-2)) (Point.mk 2 2))
          (RenderState.Done (Point.mk 0 0) (Point.mk 1 1) Position.new ()))
        GuiEvent.rightPressed =
      (CanvasState.mk (CanvasDims.mk (Point.mk (-2) (-2)) (Point.mk 2 2))
          (RenderState.Recalc (Point.mk (-2) (-2)) (Point.mk 2 2)),
        true) :=
  c9_right_press_reset.1 Unit (CanvasInfo.mk 4 3 1)
    (CanvasState.mk (CanvasDims.mk (Point.mk (-2) (-2)) (Point.mk 2 2))
      (RenderState.Done (Point.mk 0 0) (Point.mk 1 1) Position.new ()))
    (Point.mk 0 0) (Point.mk 1 1) Position.new () rfl

